import Mathlib

/-!
Shallow embedding of the CoverFlowAI backend's generation-request lifecycle
manager (src/backend/database.go and src/backend/payment.go).

Modelling conventions:
* Go `int` fields are embedded as `Int` (all mutations in the source are
  guarded, so no overflow is reachable in the flows modelled here).
* `time.Time` values are embedded as `Nat` instants; the Go zero value
  `time.Time{}` is `0`, `t.Before(u)` is `t < u`, `t.IsZero()` is `t = 0`.
  The source derives `today` (midnight truncation) from `time.Now()`;
  operations here take `now` and `today` as explicit parameters.
* The gorm database is an explicit `DB` record of lists; `First` on a key is
  a `find?`, `Save` replaces the row with the same primary key.
* Network interactions (Redis, the Nano Banana / OpenAI HTTP calls, the
  result download) are oracles supplied in an environment record; every
  branch the Go code takes on such a response is reproduced on the oracle's
  answer.
-/

namespace CoverFlow

/-- The `User` row of database.go (credits-relevant columns plus identity). -/
structure User where
  id : String
  email : String
  uname : String
  picture : String
  freeGenerationsLeft : Int
  lastFreeGeneration : Nat
  paidGenerations : Int
deriving Repr, DecidableEq

/-- The `Generation` row of database.go (timestamps elided). -/
structure Generation where
  id : String
  userID : String
  imageURL : String
  provider : String
  isFree : Bool
deriving Repr, DecidableEq

/-- The `Transaction` row of database.go (timestamps elided); monetary amounts
are embedded as rationals. -/
structure Transaction where
  id : String
  userID : String
  packageType : String
  amount : Rat
  currency : String
  status : String
  lavaOrderID : String
deriving Repr, DecidableEq

/-- The `Package` catalog entry of database.go. -/
structure Package where
  ptype : String
  pname : String
  count : Int
  priceUSD : Rat
  priceRUB : Rat
  popular : Bool
deriving Repr, DecidableEq

/-- The static `Packages` catalog of database.go. -/
def Packages : List Package :=
  [ { ptype := "pack1", pname := "Стартовый", count := 10,
      priceUSD := 299/100, priceRUB := 249, popular := false },
    { ptype := "pack2", pname := "Базовый", count := 30,
      priceUSD := 799/100, priceRUB := 599, popular := true },
    { ptype := "pack3", pname := "Профессиональный", count := 100,
      priceUSD := 1999/100, priceRUB := 1499, popular := false } ]

/-- The sqlite database: the three tables auto-migrated in `InitDB`. -/
structure DB where
  users : List User
  generations : List Generation
  transactions : List Transaction
deriving Repr, DecidableEq

/-- Semantics of `First` on a gorm query: the first row satisfying the predicate. -/
def findFirst {α : Type} (p : α → Bool) : List α → Option α
  | [] => none
  | x :: xs => if p x then some x else findFirst p xs

/-- Embeds `db.Where("id = ?", userID).First(&user)`. -/
def findUser (db : DB) (userID : String) : Option User :=
  findFirst (fun u => u.id == userID) db.users

/-- Embeds `db.Save(&user)`: replace the row with the same primary key. -/
def saveUser (db : DB) (u : User) : DB :=
  { db with users := db.users.map (fun v => if v.id == u.id then u else v) }

/-- Embeds `db.Where("lava_order_id = ?", orderID).First(&transaction)`. -/
def findTransactionByOrder (db : DB) (orderID : String) : Option Transaction :=
  findFirst (fun t => t.lavaOrderID == orderID) db.transactions

/-- Embeds `db.Save(&transaction)`. -/
def saveTransaction (db : DB) (t : Transaction) : DB :=
  { db with transactions := db.transactions.map (fun s => if s.id == t.id then t else s) }

/-- The paid balance of a user as stored in the database. -/
def paidOf (db : DB) (userID : String) : Option Int :=
  (findUser db userID).map (fun u => u.paidGenerations)

/-- The free balance of a user as stored in the database. -/
def freeOf (db : DB) (userID : String) : Option Int :=
  (findUser db userID).map (fun u => u.freeGenerationsLeft)

/-- The `LastFreeGeneration` stamp of a user as stored in the database. -/
def stampOf (db : DB) (userID : String) : Option Nat :=
  (findUser db userID).map (fun u => u.lastFreeGeneration)

/-- Embeds `CheckGenerationLimit` (database.go lines 113-135): load the user
(lookup failure propagates), apply the day-boundary reset (free := 1,
stamp cleared to the zero value, persisted), then report eligibility and
the remaining total. -/
def checkGenerationLimit (db : DB) (userID : String) (today : Nat) :
    Option (Bool × Int) × DB :=
  match findUser db userID with
  | none => (none, db)
  | some user0 =>
    let reset := user0.lastFreeGeneration < today
    let user := if reset then
        { user0 with freeGenerationsLeft := 1, lastFreeGeneration := 0 }
      else user0
    let db1 := if reset then saveUser db user else db
    let canGenerate := decide (user.freeGenerationsLeft > 0) ||
      decide (user.paidGenerations > 0)
    let remaining := user.freeGenerationsLeft + user.paidGenerations
    (some (canGenerate, remaining), db1)

/-- Embeds `UseGeneration` (database.go lines 137-168): debit one credit from the
branch selected by `isFree`.  The free branch re-applies the day reset
(without clearing the stamp) and stamps `now` on a successful debit; the
paid branch touches only `PaidGenerations`.  `false` stands for the
`gorm.ErrRecordNotFound` error returns. -/
def useGeneration (db : DB) (userID : String) (isFree : Bool)
    (now today : Nat) : Bool × DB :=
  match findUser db userID with
  | none => (false, db)
  | some user0 =>
    if isFree then
      let user1 := if user0.lastFreeGeneration < today then
          { user0 with freeGenerationsLeft := 1 }
        else user0
      if user1.freeGenerationsLeft > 0 then
        (true, saveUser db { user1 with
          freeGenerationsLeft := user1.freeGenerationsLeft - 1,
          lastFreeGeneration := now })
      else (false, db)
    else
      if user0.paidGenerations > 0 then
        (true, saveUser db { user0 with paidGenerations := user0.paidGenerations - 1 })
      else (false, db)

/-- Embeds `AddPaidGenerations` (database.go lines 170-179). -/
def addPaidGenerations (db : DB) (userID : String) (count : Int) : Bool × DB :=
  match findUser db userID with
  | none => (false, db)
  | some user =>
    (true, saveUser db { user with paidGenerations := user.paidGenerations + count })

/-- The package-catalog scan of the webhook handler (payment.go 604-611):
first entry whose type matches. -/
def findPackage (ptype : String) : Option Package :=
  findFirst (fun p => p.ptype == ptype) Packages

/-- The Lava Top payment webhook handler (payment.go lines 578-618).
Returns the HTTP status together with the updated database.  The handler
looks the transaction up by its external order id; a `success`/`completed`
status marks the transaction completed and credits the package's count via
`AddPaidGenerations` (whose error is only logged); any other status marks
the transaction failed.  The handler performs no terminal-status check on
the transaction it found. -/
def paymentWebhook (db : DB) (orderID status : String) : Nat × DB :=
  match findTransactionByOrder db orderID with
  | none => (404, db)
  | some transaction =>
    if status == "success" || status == "completed" then
      let db1 := saveTransaction db { transaction with status := "completed" }
      let db2 :=
        match findPackage transaction.packageType with
        | some pkg => (addPaidGenerations db1 transaction.userID pkg.count).2
        | none => db1
      (200, db2)
    else
      (200, saveTransaction db { transaction with status := "failed" })

/-- Semantic outcome of one poll iteration of `pollNanoBananaTask`
(payment.go lines 1011-1079), at the granularity the Go code branches on:
`retryable` covers a failed request, an unreadable body, or an unparsable
body (all of which sleep and continue); `apiError` a response with
`Code ≠ 200`; `waiting` any non-terminal `state`; `success` the terminal
success state, carrying `none` when `resultJson` is empty or unparsable and
`some urls` otherwise; `failed` the terminal failure state. -/
inductive PollOutcome where
  | retryable
  | apiError (code : Int) (msg : String)
  | waiting
  | success (resultUrls : Option (List String))
  | failed (failMsg failCode : String)
deriving Repr, DecidableEq

/-- Observable account of one run of the poll loop: the returned value (an
error message or the first result URL), the number of poll requests issued,
and the total seconds spent in `time.Sleep(interval)` calls. -/
structure PollRun where
  result : Except String String
  polls : Nat
  sleepSeconds : Nat
deriving Repr

/-- The constant `maxAttempts := 120` of payment.go line 889. -/
def nanoBananaMaxAttempts : Nat := 120

/-- The constant `interval := 5 * time.Second` of payment.go line 890, in seconds. -/
def nanoBananaPollIntervalSeconds : Nat := 5

/-- The timeout error returned after the loop of `pollNanoBananaTask`
exhausts its attempts (payment.go line 1082; the float-formatted minutes of
the Go message are elided). -/
def pollTimeoutError (maxAttempts : Nat) : String :=
  s!"task timeout after {maxAttempts} attempts"

/-- The body of the `for i := 0; i < maxAttempts; i++` loop of
`pollNanoBananaTask`, with the remaining iteration budget as fuel.
`responses i` is the oracle's answer to the poll issued on iteration `i`. -/
def pollFrom (responses : Nat → PollOutcome) (maxAttempts intervalSeconds : Nat) :
    Nat → Nat → PollRun
  | _, 0 => { result := .error (pollTimeoutError maxAttempts), polls := 0, sleepSeconds := 0 }
  | i, fuel + 1 =>
    match responses i with
    | .retryable =>
      let rest := pollFrom responses maxAttempts intervalSeconds (i + 1) fuel
      { rest with polls := rest.polls + 1, sleepSeconds := rest.sleepSeconds + intervalSeconds }
    | .apiError code msg =>
      { result := .error s!"nano banana API error: {msg} (code: {code})",
        polls := 1, sleepSeconds := 0 }
    | .waiting =>
      let rest := pollFrom responses maxAttempts intervalSeconds (i + 1) fuel
      { rest with polls := rest.polls + 1, sleepSeconds := rest.sleepSeconds + intervalSeconds }
    | .success resultUrls =>
      match resultUrls with
      | none => { result := .error "empty result JSON in response", polls := 1, sleepSeconds := 0 }
      | some [] => { result := .error "no result URLs in response", polls := 1, sleepSeconds := 0 }
      | some (u :: _) => { result := .ok u, polls := 1, sleepSeconds := 0 }
    | .failed failMsg failCode =>
      let msg := if failMsg == "" then "unknown error" else failMsg
      { result := .error s!"task failed: {msg} (failCode: {failCode})",
        polls := 1, sleepSeconds := 0 }

/-- Embeds `pollNanoBananaTask` (payment.go lines 1008-1083). -/
def pollNanoBananaTask (responses : Nat → PollOutcome)
    (maxAttempts intervalSeconds : Nat) : PollRun :=
  pollFrom responses maxAttempts intervalSeconds 0 maxAttempts

/-- Observable staging/provider actions of an orchestration attempt:
`staged ttlMinutes` is the `redisClient.Set` of the input artifact with the
given expiry, `submitCalled` the `createNanoBananaTask` (or the provider
API call of the OpenAI path), `removed` a `redisClient.Del` of the staged
artifact. -/
inductive Event where
  | staged (ttlMinutes : Nat)
  | submitCalled
  | removed
deriving Repr, DecidableEq

/-- Oracle environment for one run of `generateCoverWithNanoBanana`:
the outcome of the base64 decode, the decoded byte count, the Redis `Set`
outcome, the result of `createNanoBananaTask` (a task id, or the error the
submit path produced), the poll oracle, and the outcome of
`downloadAndSaveImage` (`some path` on success, `none` on any
download/store failure). -/
structure NanoBananaEnv where
  decodeOk : Bool
  decodedSize : Nat
  redisSetOk : Bool
  submitResult : Except String String
  responses : Nat → PollOutcome
  persistResult : Option String

/-- Embeds `generateCoverWithNanoBanana` (payment.go lines 847-915): validate and
stage the input in Redis with a 30-minute TTL, submit the task, poll it,
delete the staged artifact on every terminal outcome, then download the
result — falling back to the provider's own URL when local persistence
fails.  Returns the result of the Go function together with the ordered
staging/provider events of the run. -/
def generateCoverWithNanoBanana (env : NanoBananaEnv) (baseURL : String) :
    Except String String × List Event :=
  if !env.decodeOk then
    (.error "failed to decode base64 image", [])
  else if env.decodedSize > 10 * 1024 * 1024 then
    (.error "image size exceeds 10MB limit", [])
  else if !env.redisSetOk then
    (.error "failed to save image to Redis", [])
  else
    match env.submitResult with
    | .error e =>
      (.error ("failed to create Nano Banana task: " ++ e),
       [.staged 30, .submitCalled, .removed])
    | .ok _taskID =>
      match (pollNanoBananaTask env.responses nanoBananaMaxAttempts
          nanoBananaPollIntervalSeconds).result with
      | .error e =>
        (.error ("failed to get Nano Banana result: " ++ e),
         [.staged 30, .submitCalled, .removed])
      | .ok resultURL =>
        match env.persistResult with
        | none => (.ok resultURL, [.staged 30, .submitCalled, .removed])
        | some savedPath =>
          (.ok (baseURL ++ "/storage/" ++ savedPath),
           [.staged 30, .submitCalled, .removed])

/-- Oracle environment for `generateCoverWithOpenAI` (payment.go lines
775-845): `apiResult` abstracts the HTTP exchange up to the provider's
result URL (every error return of the request/response/parsing code is an
`.error`), `persistResult` the outcome of `downloadAndSaveImage`. -/
structure OpenAIEnv where
  apiResult : Except String String
  persistResult : Option String

/-- Embeds `generateCoverWithOpenAI` (payment.go lines 775-845): the single-shot
provider performs no staging; on a successful provider result a failed
local persistence falls back to the provider's own URL. -/
def generateCoverWithOpenAI (env : OpenAIEnv) (baseURL : String) :
    Except String String × List Event :=
  match env.apiResult with
  | .error e => (.error e, [.submitCalled])
  | .ok resultURL =>
    match env.persistResult with
    | none => (.ok resultURL, [.submitCalled])
    | some savedPath => (.ok (baseURL ++ "/storage/" ++ savedPath), [.submitCalled])

/-- Embeds `strings.Contains`: a nonempty pattern occurs in `s` iff splitting on
it yields more than one part. -/
def containsSubstr (s pat : String) : Bool :=
  (s.splitOn pat).length > 1

/-- The error-to-HTTP-status mapping of the generate-cover handler
(payment.go lines 739-747). -/
def errorStatusCode (errMsg : String) : Nat :=
  if containsSubstr errMsg "API key not configured" ||
      containsSubstr errMsg "IMGBB_API_KEY not set" then 400
  else if containsSubstr errMsg "authentication failed" ||
      containsSubstr errMsg "insufficient account balance" then 401
  else 500

/-- The settlement branch of the generate-cover handler (payment.go lines
718-734), entered when the generation function returned no error: call
`UseGeneration` (its failure is only logged, never propagated) and then
unconditionally create the `Generation` record. -/
def settleBranch (db : DB) (userID : String) (useFree : Bool)
    (coverURL provider genID : String) (now today : Nat) : DB :=
  let db1 := (useGeneration db userID useFree now today).2
  { db1 with generations := db1.generations ++
      [{ id := genID, userID := userID, imageURL := coverURL,
         provider := provider, isFree := useFree }] }

/-- Result of one run of the generate-cover handler: HTTP status, final
database, staging/provider events, and the returned image URL (on 200). -/
structure HandlerResult where
  status : Nat
  db : DB
  events : List Event
  coverURL : Option String
deriving Repr

/-- The struct `GenerateCoverRequest` (payment.go lines 127-131). -/
structure GenerateCoverRequest where
  image : String
  provider : String
  prompt : String
deriving Repr, DecidableEq

/-- The tail of the generate-cover handler after the provider dispatch
(payment.go lines 718-761): settle and record on success, map the error to
a status on failure. -/
def finishGeneration (db : DB) (userID : String) (useFree : Bool)
    (provider : String) (gen : Except String String × List Event)
    (genID : String) (now today : Nat) : HandlerResult :=
  match gen with
  | (.error e, events) =>
    { status := errorStatusCode e, db := db, events := events, coverURL := none }
  | (.ok coverURL, events) =>
    { status := 200,
      db := settleBranch db userID useFree coverURL provider genID now today,
      events := events, coverURL := some coverURL }

/-- The `POST /api/generate-cover` handler (payment.go lines 626-762):
resolve the session user (substituting `"anonymous"` when there is none),
default the provider to `"nanobanana"`, gate on `CheckGenerationLimit`
(lookup error → 500, ineligible → 402), compute `useFree` from a re-read of
the user row, dispatch to the provider (missing API key → 500, unknown
provider → 400), then settle/record on success or map the error to a
status.  The data-URI decoding of lines 649-672 only affects the bytes
handed to the provider, which the environment abstracts. -/
def generateCoverHandler (db : DB) (sessionUserID : Option String)
    (req : GenerateCoverRequest) (nanoBananaKeySet openAIKeySet : Bool)
    (nbEnv : NanoBananaEnv) (oaEnv : OpenAIEnv)
    (baseURL genID : String) (now today : Nat) : HandlerResult :=
  let userIDStr := match sessionUserID with
    | none => "anonymous"
    | some id => id
  let provider := if req.provider == "" then "nanobanana" else req.provider
  match checkGenerationLimit db userIDStr today with
  | (none, db1) => { status := 500, db := db1, events := [], coverURL := none }
  | (some (canGenerate, _remaining), db1) =>
    if !canGenerate then
      { status := 402, db := db1, events := [], coverURL := none }
    else
      let user := (findUser db1 userIDStr).getD
        { id := "", email := "", uname := "", picture := "",
          freeGenerationsLeft := 0, lastFreeGeneration := 0, paidGenerations := 0 }
      let useFree := decide (user.freeGenerationsLeft > 0) &&
        (decide (user.lastFreeGeneration < today) || user.lastFreeGeneration == 0)
      if provider == "nanobanana" then
        if !nanoBananaKeySet then
          { status := 500, db := db1, events := [], coverURL := none }
        else
          finishGeneration db1 userIDStr useFree provider
            (generateCoverWithNanoBanana nbEnv baseURL) genID now today
      else if provider == "openai" then
        if !openAIKeySet then
          { status := 500, db := db1, events := [], coverURL := none }
        else
          finishGeneration db1 userIDStr useFree provider
            (generateCoverWithOpenAI oaEnv baseURL) genID now today
      else
        { status := 400, db := db1, events := [], coverURL := none }

/-! ### Helper lemmas -/

theorem findFirst_sat {α : Type} (p : α → Bool) (l : List α) (a : α)
    (h : findFirst p l = some a) : p a = true := by
  induction l with
  | nil => simp [findFirst] at h
  | cons x xs ih =>
    simp only [findFirst] at h
    by_cases hx : p x = true
    · rw [if_pos hx] at h
      injection h with h
      subst h
      exact hx
    · rw [if_neg hx] at h
      exact ih h

theorem find_replace (l : List User) (uid : String) (w u : User)
    (hfind : findFirst (fun v => v.id == uid) l = some w) (hid : u.id = w.id) :
    findFirst (fun v => v.id == uid)
      (l.map (fun v => if v.id == u.id then u else v)) = some u := by
  induction l with
  | nil => simp [findFirst] at hfind
  | cons x xs ih =>
    simp only [findFirst] at hfind
    simp only [List.map_cons]
    by_cases hx : (x.id == uid) = true
    · rw [if_pos hx] at hfind
      injection hfind with hxw
      subst hxw
      have hxu : (x.id == u.id) = true := by simp [hid]
      have huid : (u.id == uid) = true := by
        simp only [beq_iff_eq] at hx ⊢
        rw [hid, hx]
      simp only [findFirst, if_pos hxu, if_pos huid]
    · rw [if_neg hx] at hfind
      have hw : (w.id == uid) = true :=
        findFirst_sat (fun v => v.id == uid) xs w hfind
      have hxu : (x.id == u.id) = false := by
        simp only [beq_iff_eq] at hw hx
        rw [hid, hw]
        exact beq_eq_false_iff_ne.mpr hx
      simp only [findFirst, hxu, if_false, Bool.false_eq_true, if_neg hx,
        if_neg (by simp [hxu] : ¬ ((x.id == u.id) = true))]
      exact ih hfind

theorem findUser_saveUser (db : DB) (uid : String) (w u : User)
    (hfind : findUser db uid = some w) (hid : u.id = w.id) :
    findUser (saveUser db u) uid = some u :=
  find_replace db.users uid w u hfind hid

theorem saveUser_generations (db : DB) (u : User) :
    (saveUser db u).generations = db.generations := rfl

theorem checkGenerationLimit_paid (db : DB) (uid : String) (today : Nat) :
    paidOf (checkGenerationLimit db uid today).2 uid = paidOf db uid := by
  unfold checkGenerationLimit
  cases hfind : findUser db uid with
  | none => simp [paidOf, hfind]
  | some user0 =>
    by_cases hreset : user0.lastFreeGeneration < today
    · have hsaved := findUser_saveUser db uid user0
        { user0 with freeGenerationsLeft := 1, lastFreeGeneration := 0 } hfind rfl
      simp [paidOf, hreset, hsaved, hfind]
    · simp [paidOf, hreset, hfind]

theorem checkGenerationLimit_generations (db : DB) (uid : String) (today : Nat) :
    (checkGenerationLimit db uid today).2.generations = db.generations := by
  unfold checkGenerationLimit
  cases hfind : findUser db uid with
  | none => rfl
  | some user0 =>
    by_cases hreset : user0.lastFreeGeneration < today <;>
      simp [hreset, saveUser_generations]

/-! ### C1 -/

def c1User : User :=
  { id := "u1", email := "", uname := "", picture := "",
    freeGenerationsLeft := 0, lastFreeGeneration := 0, paidGenerations := 0 }

def c1Tx : Transaction :=
  { id := "t1", userID := "u1", packageType := "pack2", amount := 599,
    currency := "RUB", status := "pending", lavaOrderID := "ord1" }

def c1DB : DB := { users := [c1User], generations := [], transactions := [c1Tx] }

def c1DBCompleted : DB :=
  { c1DB with transactions := [{ c1Tx with status := "completed" }] }

/-- C1: the payment webhook is NOT idempotent.  For a pending `pack2`
purchase intent (count 30) of a user with `paidBalance = 0`, delivering the
`success` settlement notification twice for the same external order
reference credits the balance twice (60, not 30); and a notification for an
intent that is already in the terminal `completed` status still credits the
balance (30), instead of returning without side effects.  The handler never
checks the transaction's current status before crediting. -/
theorem paymentWebhook_double_credits :
    paidOf (paymentWebhook (paymentWebhook c1DB "ord1" "success").2 "ord1" "success").2 "u1"
      = some 60 ∧
    paidOf (paymentWebhook c1DBCompleted "ord1" "success").2 "u1" = some 30 := by
  decide

/-! ### C2 -/

/-- C2: a generation attempt that aborts with a provider or staging error
debits no credit, on every provider path.  If the gate
`CheckGenerationLimit` succeeded (producing the post-gate database `db1`)
and the dispatched generation function returns an error —
`generateCoverWithNanoBanana` for the `"nanobanana"` (or defaulted empty)
provider selection, `generateCoverWithOpenAI` for `"openai"` — the handler
leaves the database exactly at `db1`: the paid balance equals its value at
the very start of the request, the free balance equals its value when the
generation attempt started (post-gate), and no `Generation` record is
created. -/
theorem failed_generation_debits_no_credit
    (db db1 : DB) (uid e baseURL genID : String) (req : GenerateCoverRequest)
    (nk ok2 : Bool) (nbEnv : NanoBananaEnv) (oaEnv : OpenAIEnv)
    (now today : Nat) (r : Int)
    (hgate : checkGenerationLimit db uid today = (some (true, r), db1))
    (hgen : ((req.provider = "nanobanana" ∨ req.provider = "") ∧ nk = true ∧
        (generateCoverWithNanoBanana nbEnv baseURL).1 = Except.error e) ∨
      (req.provider = "openai" ∧ ok2 = true ∧
        (generateCoverWithOpenAI oaEnv baseURL).1 = Except.error e)) :
    (generateCoverHandler db (some uid) req nk ok2 nbEnv oaEnv
        baseURL genID now today).db = db1 ∧
    paidOf db1 uid = paidOf db uid ∧
    freeOf (generateCoverHandler db (some uid) req nk ok2 nbEnv oaEnv
        baseURL genID now today).db uid = freeOf db1 uid ∧
    (generateCoverHandler db (some uid) req nk ok2 nbEnv oaEnv
        baseURL genID now today).db.generations = db.generations := by
  have hpaid : paidOf db1 uid = paidOf db uid := by
    have hx := checkGenerationLimit_paid db uid today
    rw [hgate] at hx
    exact hx
  have hgens : db1.generations = db.generations := by
    have hx := checkGenerationLimit_generations db uid today
    rw [hgate] at hx
    exact hx
  have hdb : (generateCoverHandler db (some uid) req nk ok2 nbEnv oaEnv
      baseURL genID now today).db = db1 := by
    rcases hgen with ⟨hprov, hnk, hgen⟩ | ⟨hprov, hok, hgen⟩
    · subst hnk
      rcases hg : generateCoverWithNanoBanana nbEnv baseURL with ⟨res, evs⟩
      rw [hg] at hgen
      simp only at hgen
      subst hgen
      rcases hprov with hprov | hprov <;>
        simp [generateCoverHandler, hgate, hprov, hg, finishGeneration]
    · subst hok
      rcases hg : generateCoverWithOpenAI oaEnv baseURL with ⟨res, evs⟩
      rw [hg] at hgen
      simp only at hgen
      subst hgen
      simp [generateCoverHandler, hgate, hprov, hg, finishGeneration]
  refine ⟨hdb, hpaid, by rw [hdb], by rw [hdb, hgens]⟩

def c2User : User :=
  { id := "u2", email := "", uname := "", picture := "",
    freeGenerationsLeft := 1, lastFreeGeneration := 0, paidGenerations := 3 }

def c2DB : DB := { users := [c2User], generations := [], transactions := [] }

def c2Req : GenerateCoverRequest :=
  { image := "", provider := "nanobanana", prompt := "" }

def c2Env : NanoBananaEnv :=
  { decodeOk := false, decodedSize := 0, redisSetOk := true,
    submitResult := .error "", responses := fun _ => .waiting,
    persistResult := none }

def c2OAEnv : OpenAIEnv :=
  { apiResult := .error "no image URL in response", persistResult := none }

def c2ReqOA : GenerateCoverRequest :=
  { image := "", provider := "openai", prompt := "" }

theorem failed_generation_debits_no_credit_witness :
    (generateCoverHandler c2DB (some "u2") c2ReqOA true true c2Env c2OAEnv
        "b" "g" 7 5).db = (checkGenerationLimit c2DB "u2" 5).2 ∧
    paidOf (checkGenerationLimit c2DB "u2" 5).2 "u2" = paidOf c2DB "u2" ∧
    freeOf (generateCoverHandler c2DB (some "u2") c2ReqOA true true c2Env c2OAEnv
        "b" "g" 7 5).db "u2" = freeOf (checkGenerationLimit c2DB "u2" 5).2 "u2" ∧
    (generateCoverHandler c2DB (some "u2") c2ReqOA true true c2Env c2OAEnv
        "b" "g" 7 5).db.generations = c2DB.generations :=
  failed_generation_debits_no_credit c2DB (checkGenerationLimit c2DB "u2" 5).2
    "u2" "no image URL in response" "b" "g" c2ReqOA true true c2Env c2OAEnv
    7 5 4 (by decide) (Or.inr ⟨rfl, rfl, rfl⟩)

/-! ### C3 -/

/-- Characterization of the free branch of `UseGeneration` when the user
row is found: the effective free balance after the in-branch reset decides
the outcome. -/
theorem useGeneration_free_spec (db : DB) (uid : String) (u : User)
    (now today : Nat) (hfind : findUser db uid = some u) :
    useGeneration db uid true now today =
      if 0 < (if u.lastFreeGeneration < today then (1 : Int)
          else u.freeGenerationsLeft) then
        (true, saveUser db { u with
          freeGenerationsLeft :=
            (if u.lastFreeGeneration < today then (1 : Int)
              else u.freeGenerationsLeft) - 1,
          lastFreeGeneration := now })
      else (false, db) := by
  unfold useGeneration
  rw [hfind]
  by_cases hreset : u.lastFreeGeneration < today <;> simp [hreset]

/-- Characterization of the paid branch of `UseGeneration` when the user
row is found: no reset is applied, only the paid balance decides. -/
theorem useGeneration_paid_spec (db : DB) (uid : String) (u : User)
    (now today : Nat) (hfind : findUser db uid = some u) :
    useGeneration db uid false now today =
      if 0 < u.paidGenerations then
        (true, saveUser db { u with paidGenerations := u.paidGenerations - 1 })
      else (false, db) := by
  unfold useGeneration
  rw [hfind]
  simp

theorem useGeneration_none (db : DB) (uid : String) (isFree : Bool)
    (now today : Nat) (hfind : findUser db uid = none) :
    useGeneration db uid isFree now today = (false, db) := by
  unfold useGeneration
  rw [hfind]

theorem useGeneration_generations (db : DB) (uid : String) (isFree : Bool)
    (now today : Nat) :
    (useGeneration db uid isFree now today).2.generations = db.generations := by
  cases hfind : findUser db uid with
  | none => rw [useGeneration_none db uid isFree now today hfind]
  | some u =>
    cases isFree with
    | true =>
      rw [useGeneration_free_spec db uid u now today hfind]
      by_cases hreset : u.lastFreeGeneration < today
      · rw [if_pos hreset]
        split <;> rfl
      · rw [if_neg hreset]
        split <;> rfl
    | false =>
      rw [useGeneration_paid_spec db uid u now today hfind]
      split <;> rfl

theorem useGeneration_fail_eq (db : DB) (uid : String) (isFree : Bool)
    (now today : Nat)
    (h : (useGeneration db uid isFree now today).1 = false) :
    (useGeneration db uid isFree now today).2 = db := by
  cases hfind : findUser db uid with
  | none => rw [useGeneration_none db uid isFree now today hfind]
  | some u =>
    cases isFree with
    | true =>
      rw [useGeneration_free_spec db uid u now today hfind] at h ⊢
      by_cases hreset : u.lastFreeGeneration < today
      · rw [if_pos hreset] at h
        rw [if_pos (by norm_num : (0:Int) < 1)] at h
        simp at h
      · rw [if_neg hreset] at h ⊢
        by_cases hf : 0 < u.freeGenerationsLeft
        · rw [if_pos hf] at h
          simp at h
        · rw [if_neg hf]
    | false =>
      rw [useGeneration_paid_spec db uid u now today hfind] at h ⊢
      by_cases hp : 0 < u.paidGenerations
      · rw [if_pos hp] at h
        simp at h
      · rw [if_neg hp]

def c3User : User :=
  { id := "u3", email := "", uname := "", picture := "",
    freeGenerationsLeft := 1, lastFreeGeneration := 0, paidGenerations := 0 }

def c3DB : DB := { users := [c3User], generations := [], transactions := [] }

/-- The database after the settlement branch of a first gate-passed attempt
(user u3, one free credit, `useFree = true` computed from `c3DB`). -/
def c3AfterA : DB := settleBranch c3DB "u3" true "urlA" "nanobanana" "ga" 100 50

/-- The database after the settlement branch of a second attempt that also
passed the gate and computed `useFree = true` against `c3DB` before the
first one settled (the interleaving the handler admits: each request's
database operations run against the then-current shared database). -/
def c3AfterB : DB := settleBranch c3AfterA "u3" true "urlB" "nanobanana" "gb" 100 50

/-- C3 counterexample: an attempt can write a `Generation` record without a
successful debit.  Starting from one free credit and no paid credits, two
gate-passed attempts both settle with `useFree = true`; the second one's
`UseGeneration` fails (the credit is gone), yet its record is still created:
two records exist while only one credit was ever debited. -/
theorem generation_record_without_debit :
    (useGeneration c3AfterA "u3" true 100 50).1 = false ∧
    c3AfterB.generations.length = 2 ∧
    freeOf c3DB "u3" = some 1 ∧ paidOf c3DB "u3" = some 0 ∧
    freeOf c3AfterB "u3" = some 0 ∧ paidOf c3AfterB "u3" = some 0 := by
  decide

/-- C3 amended: the settlement branch creates exactly one `Generation`
record unconditionally — also when the `UseGeneration` debit fails, in which
case the balances are left untouched (the failure is only logged).  So a
successful debit is always accompanied by a record, but a record does not
imply a debit. -/
theorem settleBranch_record_unconditional
    (db : DB) (userID coverURL provider genID : String) (useFree : Bool)
    (now today : Nat)
    (hfail : (useGeneration db userID useFree now today).1 = false) :
    (∀ db' : DB,
      (settleBranch db' userID useFree coverURL provider genID now today).generations.length
        = db'.generations.length + 1) ∧
    (settleBranch db userID useFree coverURL provider genID now today).users
      = db.users := by
  constructor
  · intro db'
    simp [settleBranch, useGeneration_generations]
  · simp [settleBranch, useGeneration_fail_eq db userID useFree now today hfail]

theorem settleBranch_record_unconditional_witness :
    (∀ db' : DB,
      (settleBranch db' "u3" true "urlB" "nanobanana" "gb" 100 50).generations.length
        = db'.generations.length + 1) ∧
    (settleBranch c3AfterA "u3" true "urlB" "nanobanana" "gb" 100 50).users
      = c3AfterA.users :=
  settleBranch_record_unconditional c3AfterA "u3" "urlB" "nanobanana" "gb" true
    100 50 (by decide)

/-! ### C4 -/

def c4User : User :=
  { id := "u4", email := "", uname := "", picture := "",
    freeGenerationsLeft := 0, lastFreeGeneration := 100, paidGenerations := 5 }

def c4DB : DB := { users := [c4User], generations := [], transactions := [] }

/-- C4 counterexample: `UseGeneration` with the free flag does NOT fall
back to the paid balance.  User u4 has no free credit left (post-reset: the
stamp 100 is not before today 100) but 5 paid credits; the claim requires a
successful settlement debiting the paid balance, yet the call fails and
leaves the database untouched. -/
theorem useGeneration_preferFree_no_paid_fallback :
    (useGeneration c4DB "u4" true 100 100).1 = false ∧
    (useGeneration c4DB "u4" true 100 100).2 = c4DB ∧
    paidOf c4DB "u4" = some 5 := by decide

/-- C4 amended: `UseGeneration` debits only the branch selected by its
`isFree` flag.  With `isFree = true`: after the day-boundary reset, if the
effective free balance is positive it is decremented and the paid balance
is untouched, otherwise the call fails with no change — even when paid
credits remain (no fallback; the free-over-paid preference is implemented
by the caller's `useFree` computation).  With `isFree = false`: a positive
paid balance is decremented leaving the free balance untouched, otherwise
the call fails with no change.  In particular `freeRemaining = 1`,
`paidBalance = 5` yields `(0, 5)`. -/
theorem useGeneration_branch_semantics
    (db : DB) (uid : String) (u : User) (now today : Nat) (effFree : Int)
    (hfind : findUser db uid = some u)
    (heff : effFree = if u.lastFreeGeneration < today then 1
      else u.freeGenerationsLeft) :
    (effFree > 0 →
      (useGeneration db uid true now today).1 = true ∧
      freeOf (useGeneration db uid true now today).2 uid = some (effFree - 1) ∧
      paidOf (useGeneration db uid true now today).2 uid = some u.paidGenerations) ∧
    (effFree ≤ 0 →
      (useGeneration db uid true now today).1 = false ∧
      (useGeneration db uid true now today).2 = db) ∧
    (u.paidGenerations > 0 →
      (useGeneration db uid false now today).1 = true ∧
      paidOf (useGeneration db uid false now today).2 uid
        = some (u.paidGenerations - 1) ∧
      freeOf (useGeneration db uid false now today).2 uid
        = some u.freeGenerationsLeft) ∧
    (u.paidGenerations ≤ 0 →
      (useGeneration db uid false now today).1 = false ∧
      (useGeneration db uid false now today).2 = db) := by
  have hfree := useGeneration_free_spec db uid u now today hfind
  have hpaidspec := useGeneration_paid_spec db uid u now today hfind
  rw [← heff] at hfree
  refine ⟨fun hpos => ?_, fun hz => ?_, fun hppos => ?_, fun hpz => ?_⟩
  · rw [hfree, if_pos hpos]
    have hsaved := findUser_saveUser db uid u
      { u with freeGenerationsLeft := effFree - 1, lastFreeGeneration := now }
      hfind rfl
    exact ⟨rfl, by simp [freeOf, hsaved], by simp [paidOf, hsaved]⟩
  · rw [hfree, if_neg (by omega)]
    exact ⟨rfl, rfl⟩
  · rw [hpaidspec, if_pos hppos]
    have hsaved := findUser_saveUser db uid u
      { u with paidGenerations := u.paidGenerations - 1 } hfind rfl
    exact ⟨rfl, by simp [paidOf, hsaved], by simp [freeOf, hsaved]⟩
  · rw [hpaidspec, if_neg (by omega)]
    exact ⟨rfl, rfl⟩

def c4wUser : User :=
  { id := "w4", email := "", uname := "", picture := "",
    freeGenerationsLeft := 1, lastFreeGeneration := 0, paidGenerations := 5 }

def c4wDB : DB := { users := [c4wUser], generations := [], transactions := [] }

theorem useGeneration_branch_semantics_witness :
    (useGeneration c4wDB "w4" true 7 5).1 = true ∧
    freeOf (useGeneration c4wDB "w4" true 7 5).2 "w4" = some 0 ∧
    paidOf (useGeneration c4wDB "w4" true 7 5).2 "w4" = some 5 :=
  ((useGeneration_branch_semantics c4wDB "w4" c4wUser 7 5 1 (by decide)
    (by decide)).1) (by decide)

/-! ### C5 -/

def c5User : User :=
  { id := "u5", email := "", uname := "", picture := "",
    freeGenerationsLeft := 0, lastFreeGeneration := 40, paidGenerations := 1 }

def c5DB : DB := { users := [c5User], generations := [], transactions := [] }

/-- C5 counterexample: user u5's stamp (instant 40) is strictly before the
current day (start 100), yet `UseGeneration` with `isFree = false` performs
no day-boundary reset before its debit logic: the paid credit is debited
while the free balance stays 0 (the claim requires it to be reset to the
daily allotment 1 first) and the stamp stays 40. -/
theorem useGeneration_paid_branch_skips_reset :
    (useGeneration c5DB "u5" false 120 100).1 = true ∧
    freeOf (useGeneration c5DB "u5" false 120 100).2 "u5" = some 0 ∧
    stampOf (useGeneration c5DB "u5" false 120 100).2 "u5" = some 40 ∧
    paidOf (useGeneration c5DB "u5" false 120 100).2 "u5" = some 0 := by
  decide

/-- C5 amended: for an account whose stamp is strictly before the current
day, `CheckGenerationLimit` resets the free balance to the daily allotment
1 and clears the stamp to the zero value before computing eligibility
(which therefore reports eligible with `remaining = 1 + paid`);
`UseGeneration` applies the reset (without clearing the stamp) only in its
free branch (`isFree = true`), where the debit then succeeds and consuming
the free credit stamps the current instant; the paid branch
(`isFree = false`) performs no reset and leaves the free balance and the
stamp untouched. -/
theorem day_reset_semantics
    (db : DB) (uid : String) (u : User) (now today : Nat)
    (hfind : findUser db uid = some u)
    (hstale : u.lastFreeGeneration < today) :
    (checkGenerationLimit db uid today).1
      = some (true, 1 + u.paidGenerations) ∧
    freeOf (checkGenerationLimit db uid today).2 uid = some 1 ∧
    stampOf (checkGenerationLimit db uid today).2 uid = some 0 ∧
    (useGeneration db uid true now today).1 = true ∧
    freeOf (useGeneration db uid true now today).2 uid = some 0 ∧
    stampOf (useGeneration db uid true now today).2 uid = some now ∧
    freeOf (useGeneration db uid false now today).2 uid
      = some u.freeGenerationsLeft ∧
    stampOf (useGeneration db uid false now today).2 uid
      = some u.lastFreeGeneration := by
  have h1 : (decide ((1:Int) > 0)) = true := by decide
  have hsavedCk := findUser_saveUser db uid u
    { u with freeGenerationsLeft := 1, lastFreeGeneration := 0 } hfind rfl
  have hck : checkGenerationLimit db uid today =
      (some (true, 1 + u.paidGenerations),
        saveUser db { u with freeGenerationsLeft := 1, lastFreeGeneration := 0 }) := by
    unfold checkGenerationLimit
    rw [hfind]
    simp [hstale, h1]
  have hfree := useGeneration_free_spec db uid u now today hfind
  rw [if_pos hstale] at hfree
  rw [if_pos (by norm_num : (0:Int) < 1)] at hfree
  norm_num at hfree
  have hsavedF := findUser_saveUser db uid u
    { u with freeGenerationsLeft := 0, lastFreeGeneration := now }
    hfind rfl
  have hpaidspec := useGeneration_paid_spec db uid u now today hfind
  refine ⟨by rw [hck], by rw [hck]; simp [freeOf, hsavedCk],
    by rw [hck]; simp [stampOf, hsavedCk], by rw [hfree],
    by rw [hfree]; simp [freeOf, hsavedF],
    by rw [hfree]; simp [stampOf, hsavedF], ?_, ?_⟩
  · by_cases hp : 0 < u.paidGenerations
    · have hsavedP := findUser_saveUser db uid u
        { u with paidGenerations := u.paidGenerations - 1 } hfind rfl
      rw [hpaidspec, if_pos hp]
      simp [freeOf, hsavedP]
    · rw [hpaidspec, if_neg hp]
      simp [freeOf, hfind]
  · by_cases hp : 0 < u.paidGenerations
    · have hsavedP := findUser_saveUser db uid u
        { u with paidGenerations := u.paidGenerations - 1 } hfind rfl
      rw [hpaidspec, if_pos hp]
      simp [stampOf, hsavedP]
    · rw [hpaidspec, if_neg hp]
      simp [stampOf, hfind]

theorem day_reset_semantics_witness :
    (checkGenerationLimit c5DB "u5" 100).1 = some (true, 1 + c5User.paidGenerations) ∧
    freeOf (checkGenerationLimit c5DB "u5" 100).2 "u5" = some 1 ∧
    stampOf (checkGenerationLimit c5DB "u5" 100).2 "u5" = some 0 ∧
    (useGeneration c5DB "u5" true 120 100).1 = true ∧
    freeOf (useGeneration c5DB "u5" true 120 100).2 "u5" = some 0 ∧
    stampOf (useGeneration c5DB "u5" true 120 100).2 "u5" = some 120 ∧
    freeOf (useGeneration c5DB "u5" false 120 100).2 "u5"
      = some c5User.freeGenerationsLeft ∧
    stampOf (useGeneration c5DB "u5" false 120 100).2 "u5"
      = some c5User.lastFreeGeneration :=
  day_reset_semantics c5DB "u5" c5User 120 100 (by decide) (by decide)

/-! ### C6 -/

/-- C6: an account with no free credit after the day-boundary reset and no
paid credit receives the distinguishable payment-required outcome (HTTP
402) from the generate-cover handler; no staging and no provider call
happens (the event trace is empty) and the database is unchanged — for any
requested provider, any API-key configuration and any environment. -/
theorem no_credits_payment_required
    (db : DB) (uid baseURL genID : String) (u : User)
    (req : GenerateCoverRequest) (nk ok2 : Bool)
    (nbEnv : NanoBananaEnv) (oaEnv : OpenAIEnv) (now today : Nat)
    (hfind : findUser db uid = some u)
    (hfree : (if u.lastFreeGeneration < today then (1:Int)
      else u.freeGenerationsLeft) = 0)
    (hpaid : u.paidGenerations = 0) :
    (generateCoverHandler db (some uid) req nk ok2 nbEnv oaEnv
      baseURL genID now today).status = 402 ∧
    (generateCoverHandler db (some uid) req nk ok2 nbEnv oaEnv
      baseURL genID now today).events = [] ∧
    (generateCoverHandler db (some uid) req nk ok2 nbEnv oaEnv
      baseURL genID now today).db = db := by
  have hreset : ¬ u.lastFreeGeneration < today := by
    intro h
    rw [if_pos h] at hfree
    norm_num at hfree
  have hfree0 : u.freeGenerationsLeft = 0 := by rwa [if_neg hreset] at hfree
  have h0 : (decide ((0:Int) > 0)) = false := by decide
  have hck : checkGenerationLimit db uid today = (some (false, 0), db) := by
    unfold checkGenerationLimit
    rw [hfind]
    simp [hreset, hfree0, hpaid, h0]
  refine ⟨?_, ?_, ?_⟩ <;> simp [generateCoverHandler, hck]

def dummyReq : GenerateCoverRequest := { image := "", provider := "", prompt := "" }

def dummyNBEnv : NanoBananaEnv :=
  { decodeOk := true, decodedSize := 10, redisSetOk := true,
    submitResult := .ok "task", responses := fun _ => .success (some ["r"]),
    persistResult := some "p.png" }

def dummyOAEnv : OpenAIEnv := { apiResult := .ok "r", persistResult := some "p.png" }

def c6User : User :=
  { id := "u6", email := "", uname := "", picture := "",
    freeGenerationsLeft := 0, lastFreeGeneration := 50, paidGenerations := 0 }

def c6DB : DB := { users := [c6User], generations := [], transactions := [] }

theorem no_credits_payment_required_witness :
    (generateCoverHandler c6DB (some "u6") dummyReq true true dummyNBEnv dummyOAEnv
      "b" "g" 50 50).status = 402 ∧
    (generateCoverHandler c6DB (some "u6") dummyReq true true dummyNBEnv dummyOAEnv
      "b" "g" 50 50).events = [] ∧
    (generateCoverHandler c6DB (some "u6") dummyReq true true dummyNBEnv dummyOAEnv
      "b" "g" 50 50).db = c6DB :=
  no_credits_payment_required c6DB "u6" "b" "g" c6User dummyReq true true
    dummyNBEnv dummyOAEnv 50 50 (by decide) (by decide) (by decide)

/-! ### C7 -/

theorem pollFrom_polls_le (responses : Nat → PollOutcome) (m s : Nat) :
    ∀ fuel i, (pollFrom responses m s i fuel).polls ≤ fuel := by
  intro fuel
  induction fuel with
  | zero => intro i; simp [pollFrom]
  | succ n ih =>
    intro i
    cases hresp : responses i with
    | retryable =>
      have := ih (i + 1)
      simp only [pollFrom, hresp]
      omega
    | apiError code msg => simp [pollFrom, hresp]
    | waiting =>
      have := ih (i + 1)
      simp only [pollFrom, hresp]
      omega
    | success urls =>
      rcases urls with _ | ⟨_ | ⟨v, vs⟩⟩ <;> simp [pollFrom, hresp]
    | failed fm fc => simp [pollFrom, hresp]

theorem pollFrom_succ_waiting (responses : Nat → PollOutcome)
    (m s i fuel : Nat) (h : responses i = PollOutcome.waiting) :
    pollFrom responses m s i (fuel + 1) =
      { result := (pollFrom responses m s (i + 1) fuel).result,
        polls := (pollFrom responses m s (i + 1) fuel).polls + 1,
        sleepSeconds := (pollFrom responses m s (i + 1) fuel).sleepSeconds + s } := by
  simp only [pollFrom, h]

theorem pollFrom_succ_retryable (responses : Nat → PollOutcome)
    (m s i fuel : Nat) (h : responses i = PollOutcome.retryable) :
    pollFrom responses m s i (fuel + 1) =
      { result := (pollFrom responses m s (i + 1) fuel).result,
        polls := (pollFrom responses m s (i + 1) fuel).polls + 1,
        sleepSeconds := (pollFrom responses m s (i + 1) fuel).sleepSeconds + s } := by
  simp only [pollFrom, h]

theorem pollFrom_nonterminal_timeout (responses : Nat → PollOutcome) (m s : Nat) :
    ∀ fuel i,
      (∀ j, j < fuel → responses (i + j) = PollOutcome.waiting ∨
        responses (i + j) = PollOutcome.retryable) →
      pollFrom responses m s i fuel =
        { result := .error (pollTimeoutError m), polls := fuel,
          sleepSeconds := fuel * s } := by
  intro fuel
  induction fuel with
  | zero => intro i _; simp [pollFrom]
  | succ n ih =>
    intro i h
    have ih' := ih (i + 1) (fun j hj => by
      have hx := h (j + 1) (by omega)
      rwa [show i + (j + 1) = i + 1 + j by omega] at hx)
    have h0 := h 0 (Nat.succ_pos n)
    rw [Nat.add_zero] at h0
    rcases h0 with h0 | h0
    · rw [pollFrom_succ_waiting responses m s i n h0, ih']
      simp [Nat.succ_mul]
    · rw [pollFrom_succ_retryable responses m s i n h0, ih']
      simp [Nat.succ_mul]

theorem pollFrom_waiting_then_success (responses : Nat → PollOutcome)
    (m s : Nat) (u : String) (us : List String) :
    ∀ k i,
      (∀ j, j < k → responses (i + j) = PollOutcome.waiting) →
      responses (i + k) = PollOutcome.success (some (u :: us)) →
      pollFrom responses m s i (k + 1) =
        { result := .ok u, polls := k + 1, sleepSeconds := k * s } := by
  intro k
  induction k with
  | zero =>
    intro i hw hs
    rw [Nat.add_zero] at hs
    simp [pollFrom, hs]
  | succ n ih =>
    intro i hw hs
    have h0 := hw 0 (Nat.succ_pos n)
    rw [Nat.add_zero] at h0
    have ih' := ih (i + 1) (fun j hj => by
      have hx := hw (j + 1) (by omega)
      rwa [show i + (j + 1) = i + 1 + j by omega] at hx)
      (by rwa [show i + (n + 1) = i + 1 + n by omega] at hs)
    rw [pollFrom_succ_waiting responses m s i (n + 1) h0, ih']
    simp [Nat.succ_mul]

/-- C7: the poll loop of `generateCoverWithNanoBanana` is bounded by 120
attempts at a fixed 5-second interval; if the provider reports a
non-terminal state for the first 119 polls and success on poll 120, the
loop succeeds exactly at the ceiling (120 polls, 119 sleeps); if all 120
polls see a non-terminal state (pending or a retryable transport error),
the loop stops with the timeout error instead of polling further. -/
theorem poll_loop_ceiling (responses : Nat → PollOutcome) (u : String)
    (us : List String) :
    nanoBananaMaxAttempts = 120 ∧ nanoBananaPollIntervalSeconds = 5 ∧
    (pollNanoBananaTask responses nanoBananaMaxAttempts
      nanoBananaPollIntervalSeconds).polls ≤ nanoBananaMaxAttempts ∧
    ((∀ j, j < 119 → responses j = PollOutcome.waiting) →
      responses 119 = PollOutcome.success (some (u :: us)) →
      pollNanoBananaTask responses nanoBananaMaxAttempts
          nanoBananaPollIntervalSeconds
        = { result := .ok u, polls := 120, sleepSeconds := 119 * 5 }) ∧
    ((∀ j, j < 120 → responses j = PollOutcome.waiting ∨
        responses j = PollOutcome.retryable) →
      pollNanoBananaTask responses nanoBananaMaxAttempts
          nanoBananaPollIntervalSeconds
        = { result := .error (pollTimeoutError 120), polls := 120,
            sleepSeconds := 120 * 5 }) := by
  refine ⟨rfl, rfl, pollFrom_polls_le responses _ _ 120 0, ?_, ?_⟩
  · intro hw hs
    have hx := pollFrom_waiting_then_success responses 120 5 u us 119 0
      (fun j hj => by simpa using hw j hj) (by simpa using hs)
    simpa [pollNanoBananaTask, nanoBananaMaxAttempts,
      nanoBananaPollIntervalSeconds] using hx
  · intro hw
    have hx := pollFrom_nonterminal_timeout responses 120 5 120 0
      (fun j hj => by simpa using hw j hj)
    simpa [pollNanoBananaTask, nanoBananaMaxAttempts,
      nanoBananaPollIntervalSeconds] using hx

def c7Responses : Nat → PollOutcome :=
  fun j => if j < 119 then .waiting else .success (some ["r"])

theorem poll_loop_ceiling_witness :
    pollNanoBananaTask c7Responses nanoBananaMaxAttempts
        nanoBananaPollIntervalSeconds
      = { result := .ok "r", polls := 120, sleepSeconds := 119 * 5 } :=
  ((poll_loop_ceiling c7Responses "r" []).2.2.2.1)
    (fun j hj => by simp [c7Responses, hj]) (by decide)

/-! ### C8 -/

theorem nanoBanana_events_cases (env : NanoBananaEnv) (baseURL : String) :
    (generateCoverWithNanoBanana env baseURL).2 = [] ∨
    (generateCoverWithNanoBanana env baseURL).2
      = [Event.staged 30, Event.submitCalled, Event.removed] := by
  unfold generateCoverWithNanoBanana
  split_ifs
  · left; rfl
  · left; rfl
  · left; rfl
  · cases env.submitResult with
    | error e => right; rfl
    | ok t =>
      cases hres : (pollNanoBananaTask env.responses nanoBananaMaxAttempts
          nanoBananaPollIntervalSeconds).result with
      | error e => right; simp [hres]
      | ok r =>
        cases env.persistResult with
        | none => right; simp [hres]
        | some p => right; simp [hres]

/-- C8: every staged artifact is reclaimed.  If a run of
`generateCoverWithNanoBanana` staged the input artifact (a `staged ttl`
event occurred), then the entry was stored with the 30-minute TTL and an
explicit removal was executed within that same run — the code deletes the
Redis entry on every terminal outcome (submit error, poll failure, timeout,
success), and the TTL is the passive backstop for runs that never complete. -/
theorem staged_artifact_reclaimed (env : NanoBananaEnv) (baseURL : String)
    (ttl : Nat)
    (hmem : Event.staged ttl ∈ (generateCoverWithNanoBanana env baseURL).2) :
    ttl = 30 ∧ Event.removed ∈ (generateCoverWithNanoBanana env baseURL).2 := by
  rcases nanoBanana_events_cases env baseURL with h | h
  · rw [h] at hmem
    simp at hmem
  · rw [h] at hmem ⊢
    constructor
    · simpa using hmem
    · simp

def c8Env : NanoBananaEnv :=
  { decodeOk := true, decodedSize := 1, redisSetOk := true,
    submitResult := .error "boom", responses := fun _ => .waiting,
    persistResult := none }

theorem staged_artifact_reclaimed_witness :
    (30 : Nat) = 30 ∧
    Event.removed ∈ (generateCoverWithNanoBanana c8Env "b").2 :=
  staged_artifact_reclaimed c8Env "b" 30 (by decide)

/-! ### C9 -/

/-- C9: when the provider job succeeds but the local download/store step
fails, the generation function still returns success carrying the
provider's own result URL, for both the Nano Banana and the OpenAI paths:
a persistence failure never fails the request. -/
theorem persistence_failure_degrades_gracefully
    (nbEnv : NanoBananaEnv) (oaEnv : OpenAIEnv) (baseURL tid nurl ourl : String)
    (hdec : nbEnv.decodeOk = true)
    (hsize : ¬ nbEnv.decodedSize > 10 * 1024 * 1024)
    (hredis : nbEnv.redisSetOk = true)
    (hsubmit : nbEnv.submitResult = .ok tid)
    (hpoll : (pollNanoBananaTask nbEnv.responses nanoBananaMaxAttempts
        nanoBananaPollIntervalSeconds).result = .ok nurl)
    (hpersist : nbEnv.persistResult = none)
    (hoa : oaEnv.apiResult = .ok ourl)
    (hoapersist : oaEnv.persistResult = none) :
    (generateCoverWithNanoBanana nbEnv baseURL).1 = .ok nurl ∧
    (generateCoverWithOpenAI oaEnv baseURL).1 = .ok ourl := by
  constructor
  · unfold generateCoverWithNanoBanana
    simp [hdec, hsize, hredis, hsubmit, hpoll, hpersist]
  · unfold generateCoverWithOpenAI
    simp [hoa, hoapersist]

def c9Env : NanoBananaEnv :=
  { decodeOk := true, decodedSize := 1, redisSetOk := true,
    submitResult := .ok "t", responses := fun _ => .success (some ["nurl"]),
    persistResult := none }

def c9OAEnv : OpenAIEnv := { apiResult := .ok "ourl", persistResult := none }

theorem persistence_failure_degrades_gracefully_witness :
    (generateCoverWithNanoBanana c9Env "b").1 = .ok "nurl" ∧
    (generateCoverWithOpenAI c9OAEnv "b").1 = .ok "ourl" :=
  persistence_failure_degrades_gracefully c9Env c9OAEnv "b" "t" "nurl" "ourl"
    rfl (by decide) rfl rfl (by rfl) rfl rfl rfl

/-! ### C10 -/

/-- C10: a generation request without an authenticated session is resolved
to the fixed account id `"anonymous"`; when no such user row exists, the
eligibility check fails with a lookup error and the handler answers 500
before any staging or provider call (empty event trace), leaving the
database unchanged — an unauthenticated caller can never trigger a
generation. -/
theorem unauthenticated_request_rejected
    (db : DB) (req : GenerateCoverRequest) (nk ok2 : Bool)
    (nbEnv : NanoBananaEnv) (oaEnv : OpenAIEnv)
    (baseURL genID : String) (now today : Nat)
    (hanon : findUser db "anonymous" = none) :
    (generateCoverHandler db none req nk ok2 nbEnv oaEnv
      baseURL genID now today).status = 500 ∧
    (generateCoverHandler db none req nk ok2 nbEnv oaEnv
      baseURL genID now today).events = [] ∧
    (generateCoverHandler db none req nk ok2 nbEnv oaEnv
      baseURL genID now today).db = db := by
  have hck : checkGenerationLimit db "anonymous" today = (none, db) := by
    unfold checkGenerationLimit
    rw [hanon]
  refine ⟨?_, ?_, ?_⟩ <;> simp [generateCoverHandler, hck]

def c10DB : DB := { users := [], generations := [], transactions := [] }

theorem unauthenticated_request_rejected_witness :
    (generateCoverHandler c10DB none dummyReq true true dummyNBEnv dummyOAEnv
      "b" "g" 7 5).status = 500 ∧
    (generateCoverHandler c10DB none dummyReq true true dummyNBEnv dummyOAEnv
      "b" "g" 7 5).events = [] ∧
    (generateCoverHandler c10DB none dummyReq true true dummyNBEnv dummyOAEnv
      "b" "g" 7 5).db = c10DB :=
  unauthenticated_request_rejected c10DB dummyReq true true dummyNBEnv
    dummyOAEnv "b" "g" 7 5 rfl

end CoverFlow
